import Mathlib

/-!
Verification development for the TxPID tuning core of the LibrePilot firmware
(src/flight/modules/TxPID/txpid.c) and the sine lookup utility
(src/flight/Libraries/math/sin_lookup.c).

Floating-point values are embedded as exact rationals (`ℚ`); machine floats in
the source are modelled with exact arithmetic.  C integers are embedded as
`Nat`/`Int` with the source's truncated `%` rendered as `Int.tmod`.
-/

namespace TxPID

/-- Epsilon used by the source's change detector (`1e-9f` in `update`). -/
def eps : ℚ := 1 / 1000000000

/-- Embedding of `static uint8_t update(float *var, float val)` from txpid.c.
The C function mutates `*var` and returns 1/0; here it returns the new value
of the variable together with the boolean result. -/
def update (var val : ℚ) : ℚ × Bool :=
  if |var - val| > eps then (val, true) else (var, false)

/-- Embedding of `static float scale(float val, float inMin, float inMax,
float outMin, float outMax)` from txpid.c.  The successive reassignments of
`val` in the C body are rendered as let bindings; the `outMin > outMax` branch
swaps the bounds and reverses the normalized value exactly as the source does. -/
def scale (val inMin inMax outMin outMax : ℚ) : ℚ :=
  let v1 := if val > inMax then inMax else val
  let v2 := if v1 < inMin then inMin else v1
  let t := if inMax ≤ inMin then 0 else (v2 - inMin) / (inMax - inMin)
  if outMin > outMax then (outMin - outMax) * (1 - t) + outMax
  else (outMax - outMin) * t + outMin

/-- Rate-loop PID coefficient group of a stabilization bank
(fields `Kp`, `Ki`, `Kd`, `ILimit` of e.g. `bank.RollRatePID`). -/
structure RatePID where
  Kp : ℚ
  Ki : ℚ
  Kd : ℚ
  ILimit : ℚ
  deriving DecidableEq

/-- Attitude-loop PI coefficient group of a stabilization bank
(fields `Kp`, `Ki`, `ILimit` of e.g. `bank.RollPI`). -/
structure AttitudePI where
  Kp : ℚ
  Ki : ℚ
  ILimit : ℚ
  deriving DecidableEq

/-- Embedding of `StabilizationBankData`: the fields of the bank record that
`updatePIDs` touches. -/
structure StabilizationBankData where
  RollRatePID : RatePID
  PitchRatePID : RatePID
  YawRatePID : RatePID
  RollPI : AttitudePI
  PitchPI : AttitudePI
  YawPI : AttitudePI
  deriving DecidableEq

/-- Embedding of `StabilizationSettingsData`: the only field `updatePIDs`
touches is `GyroTau`. -/
structure StabilizationSettingsData where
  GyroTau : ℚ
  deriving DecidableEq

/-- Embedding of the `TXPIDSETTINGS_PIDS_*` enumeration: the PID-target
identifier stored in each `PIDs` slot. -/
inductive PIDTarget where
  | DISABLED
  | ROLLRATEKP
  | ROLLRATEKI
  | ROLLRATEKD
  | ROLLRATEILIMIT
  | ROLLATTITUDEKP
  | ROLLATTITUDEKI
  | ROLLATTITUDEILIMIT
  | PITCHRATEKP
  | PITCHRATEKI
  | PITCHRATEKD
  | PITCHRATEILIMIT
  | PITCHATTITUDEKP
  | PITCHATTITUDEKI
  | PITCHATTITUDEILIMIT
  | ROLLPITCHRATEKP
  | ROLLPITCHRATEKI
  | ROLLPITCHRATEKD
  | ROLLPITCHRATEILIMIT
  | ROLLPITCHATTITUDEKP
  | ROLLPITCHATTITUDEKI
  | ROLLPITCHATTITUDEILIMIT
  | YAWRATEKP
  | YAWRATEKI
  | YAWRATEKD
  | YAWRATEILIMIT
  | YAWATTITUDEKP
  | YAWATTITUDEKI
  | YAWATTITUDEILIMIT
  | GYROTAU
  deriving DecidableEq

/-- One slot of the parallel arrays `PIDs`/`Inputs`/`MinPID`/`MaxPID` of
`TxPIDSettingsData` (the source accesses them through
`cast_struct_to_array` at a common index `i`). -/
structure TxPIDSlot where
  pid : PIDTarget
  input : Nat
  MinPID : ℚ
  MaxPID : ℚ
  deriving DecidableEq

/-- Embedding of `TxPIDSettingsData`: the fields of the settings record that
`updatePIDs` reads.  `UpdateMode` keeps its raw numeric value because the
source both compares it against the update-mode constants and switches on the
integers 0/1/2 to select a bank. -/
structure TxPIDSettingsData where
  UpdateMode : Nat
  ThrottleRangeMin : ℚ
  ThrottleRangeMax : ℚ
  slots : List TxPIDSlot
  deriving DecidableEq

/-- Numeric value of `TXPIDSETTINGS_UPDATEMODE_NEVER` from the generated
UAVObject header (options are Never, When Armed, Always in order). -/
def TXPIDSETTINGS_UPDATEMODE_NEVER : Nat := 0

/-- Numeric value of `TXPIDSETTINGS_UPDATEMODE_WHENARMED` from the generated
UAVObject header. -/
def TXPIDSETTINGS_UPDATEMODE_WHENARMED : Nat := 1

/-- Numeric value of `TXPIDSETTINGS_UPDATEMODE_ALWAYS` from the generated
UAVObject header. -/
def TXPIDSETTINGS_UPDATEMODE_ALWAYS : Nat := 2

/-- Numeric value of `FLIGHTSTATUS_ARMED_DISARMED` from the generated
UAVObject header. -/
def FLIGHTSTATUS_ARMED_DISARMED : Nat := 0

/-- Numeric value of `TXPIDSETTINGS_INPUTS_THROTTLE`; per the input-identifier
convention `THROTTLE = 0`. -/
def TXPIDSETTINGS_INPUTS_THROTTLE : Nat := 0

/-- Numeric value of `TXPIDSETTINGS_INPUTS_ACCESSORY0`; per the
input-identifier convention `ACCESSORYk = k + 1`, used to convert to a
zero-based accessory index by subtraction. -/
def TXPIDSETTINGS_INPUTS_ACCESSORY0 : Nat := 1

/-- Embedding of the per-slot `switch (...PIDs[i])` dispatch in `updatePIDs`
(txpid.c lines 216-313).  Each case routes the slot's scaled value through
`update` into one bank or settings field; the six coupled `ROLLPITCH…` cases
perform two sequential updates and OR the change flags.  The result is the
updated bank, the updated settings, the bank change flag and the settings
change flag of this one dispatch.  The source's `default: PIOS_Assert(0)`
branch corresponds to `DISABLED`, which the caller's guard makes unreachable;
it is rendered as a no-op here. -/
def dispatch (t : PIDTarget) (value : ℚ) (bank : StabilizationBankData)
    (stab : StabilizationSettingsData) :
    StabilizationBankData × StabilizationSettingsData × Bool × Bool :=
  match t with
  | .ROLLRATEKP =>
    let r := update bank.RollRatePID.Kp value
    ({ bank with RollRatePID := { bank.RollRatePID with Kp := r.1 } }, stab, r.2, false)
  | .ROLLRATEKI =>
    let r := update bank.RollRatePID.Ki value
    ({ bank with RollRatePID := { bank.RollRatePID with Ki := r.1 } }, stab, r.2, false)
  | .ROLLRATEKD =>
    let r := update bank.RollRatePID.Kd value
    ({ bank with RollRatePID := { bank.RollRatePID with Kd := r.1 } }, stab, r.2, false)
  | .ROLLRATEILIMIT =>
    let r := update bank.RollRatePID.ILimit value
    ({ bank with RollRatePID := { bank.RollRatePID with ILimit := r.1 } }, stab, r.2, false)
  | .ROLLATTITUDEKP =>
    let r := update bank.RollPI.Kp value
    ({ bank with RollPI := { bank.RollPI with Kp := r.1 } }, stab, r.2, false)
  | .ROLLATTITUDEKI =>
    let r := update bank.RollPI.Ki value
    ({ bank with RollPI := { bank.RollPI with Ki := r.1 } }, stab, r.2, false)
  | .ROLLATTITUDEILIMIT =>
    let r := update bank.RollPI.ILimit value
    ({ bank with RollPI := { bank.RollPI with ILimit := r.1 } }, stab, r.2, false)
  | .PITCHRATEKP =>
    let r := update bank.PitchRatePID.Kp value
    ({ bank with PitchRatePID := { bank.PitchRatePID with Kp := r.1 } }, stab, r.2, false)
  | .PITCHRATEKI =>
    let r := update bank.PitchRatePID.Ki value
    ({ bank with PitchRatePID := { bank.PitchRatePID with Ki := r.1 } }, stab, r.2, false)
  | .PITCHRATEKD =>
    let r := update bank.PitchRatePID.Kd value
    ({ bank with PitchRatePID := { bank.PitchRatePID with Kd := r.1 } }, stab, r.2, false)
  | .PITCHRATEILIMIT =>
    let r := update bank.PitchRatePID.ILimit value
    ({ bank with PitchRatePID := { bank.PitchRatePID with ILimit := r.1 } }, stab, r.2, false)
  | .PITCHATTITUDEKP =>
    let r := update bank.PitchPI.Kp value
    ({ bank with PitchPI := { bank.PitchPI with Kp := r.1 } }, stab, r.2, false)
  | .PITCHATTITUDEKI =>
    let r := update bank.PitchPI.Ki value
    ({ bank with PitchPI := { bank.PitchPI with Ki := r.1 } }, stab, r.2, false)
  | .PITCHATTITUDEILIMIT =>
    let r := update bank.PitchPI.ILimit value
    ({ bank with PitchPI := { bank.PitchPI with ILimit := r.1 } }, stab, r.2, false)
  | .ROLLPITCHRATEKP =>
    let r1 := update bank.RollRatePID.Kp value
    let b1 := { bank with RollRatePID := { bank.RollRatePID with Kp := r1.1 } }
    let r2 := update b1.PitchRatePID.Kp value
    ({ b1 with PitchRatePID := { b1.PitchRatePID with Kp := r2.1 } }, stab, r1.2 || r2.2, false)
  | .ROLLPITCHRATEKI =>
    let r1 := update bank.RollRatePID.Ki value
    let b1 := { bank with RollRatePID := { bank.RollRatePID with Ki := r1.1 } }
    let r2 := update b1.PitchRatePID.Ki value
    ({ b1 with PitchRatePID := { b1.PitchRatePID with Ki := r2.1 } }, stab, r1.2 || r2.2, false)
  | .ROLLPITCHRATEKD =>
    let r1 := update bank.RollRatePID.Kd value
    let b1 := { bank with RollRatePID := { bank.RollRatePID with Kd := r1.1 } }
    let r2 := update b1.PitchRatePID.Kd value
    ({ b1 with PitchRatePID := { b1.PitchRatePID with Kd := r2.1 } }, stab, r1.2 || r2.2, false)
  | .ROLLPITCHRATEILIMIT =>
    let r1 := update bank.RollRatePID.ILimit value
    let b1 := { bank with RollRatePID := { bank.RollRatePID with ILimit := r1.1 } }
    let r2 := update b1.PitchRatePID.ILimit value
    ({ b1 with PitchRatePID := { b1.PitchRatePID with ILimit := r2.1 } }, stab, r1.2 || r2.2, false)
  | .ROLLPITCHATTITUDEKP =>
    let r1 := update bank.RollPI.Kp value
    let b1 := { bank with RollPI := { bank.RollPI with Kp := r1.1 } }
    let r2 := update b1.PitchPI.Kp value
    ({ b1 with PitchPI := { b1.PitchPI with Kp := r2.1 } }, stab, r1.2 || r2.2, false)
  | .ROLLPITCHATTITUDEKI =>
    let r1 := update bank.RollPI.Ki value
    let b1 := { bank with RollPI := { bank.RollPI with Ki := r1.1 } }
    let r2 := update b1.PitchPI.Ki value
    ({ b1 with PitchPI := { b1.PitchPI with Ki := r2.1 } }, stab, r1.2 || r2.2, false)
  | .ROLLPITCHATTITUDEILIMIT =>
    let r1 := update bank.RollPI.ILimit value
    let b1 := { bank with RollPI := { bank.RollPI with ILimit := r1.1 } }
    let r2 := update b1.PitchPI.ILimit value
    ({ b1 with PitchPI := { b1.PitchPI with ILimit := r2.1 } }, stab, r1.2 || r2.2, false)
  | .YAWRATEKP =>
    let r := update bank.YawRatePID.Kp value
    ({ bank with YawRatePID := { bank.YawRatePID with Kp := r.1 } }, stab, r.2, false)
  | .YAWRATEKI =>
    let r := update bank.YawRatePID.Ki value
    ({ bank with YawRatePID := { bank.YawRatePID with Ki := r.1 } }, stab, r.2, false)
  | .YAWRATEKD =>
    let r := update bank.YawRatePID.Kd value
    ({ bank with YawRatePID := { bank.YawRatePID with Kd := r.1 } }, stab, r.2, false)
  | .YAWRATEILIMIT =>
    let r := update bank.YawRatePID.ILimit value
    ({ bank with YawRatePID := { bank.YawRatePID with ILimit := r.1 } }, stab, r.2, false)
  | .YAWATTITUDEKP =>
    let r := update bank.YawPI.Kp value
    ({ bank with YawPI := { bank.YawPI with Kp := r.1 } }, stab, r.2, false)
  | .YAWATTITUDEKI =>
    let r := update bank.YawPI.Ki value
    ({ bank with YawPI := { bank.YawPI with Ki := r.1 } }, stab, r.2, false)
  | .YAWATTITUDEILIMIT =>
    let r := update bank.YawPI.ILimit value
    ({ bank with YawPI := { bank.YawPI with ILimit := r.1 } }, stab, r.2, false)
  | .GYROTAU =>
    let r := update stab.GyroTau value
    (bank, { stab with GyroTau := r.1 }, false, r.2)
  | .DISABLED => (bank, stab, false, false)

/-- Current values of the field(s) a PID target routes to, used to state the
steady-state condition of a slot. -/
def targetFields (t : PIDTarget) (bank : StabilizationBankData)
    (stab : StabilizationSettingsData) : List ℚ :=
  match t with
  | .DISABLED => []
  | .ROLLRATEKP => [bank.RollRatePID.Kp]
  | .ROLLRATEKI => [bank.RollRatePID.Ki]
  | .ROLLRATEKD => [bank.RollRatePID.Kd]
  | .ROLLRATEILIMIT => [bank.RollRatePID.ILimit]
  | .ROLLATTITUDEKP => [bank.RollPI.Kp]
  | .ROLLATTITUDEKI => [bank.RollPI.Ki]
  | .ROLLATTITUDEILIMIT => [bank.RollPI.ILimit]
  | .PITCHRATEKP => [bank.PitchRatePID.Kp]
  | .PITCHRATEKI => [bank.PitchRatePID.Ki]
  | .PITCHRATEKD => [bank.PitchRatePID.Kd]
  | .PITCHRATEILIMIT => [bank.PitchRatePID.ILimit]
  | .PITCHATTITUDEKP => [bank.PitchPI.Kp]
  | .PITCHATTITUDEKI => [bank.PitchPI.Ki]
  | .PITCHATTITUDEILIMIT => [bank.PitchPI.ILimit]
  | .ROLLPITCHRATEKP => [bank.RollRatePID.Kp, bank.PitchRatePID.Kp]
  | .ROLLPITCHRATEKI => [bank.RollRatePID.Ki, bank.PitchRatePID.Ki]
  | .ROLLPITCHRATEKD => [bank.RollRatePID.Kd, bank.PitchRatePID.Kd]
  | .ROLLPITCHRATEILIMIT => [bank.RollRatePID.ILimit, bank.PitchRatePID.ILimit]
  | .ROLLPITCHATTITUDEKP => [bank.RollPI.Kp, bank.PitchPI.Kp]
  | .ROLLPITCHATTITUDEKI => [bank.RollPI.Ki, bank.PitchPI.Ki]
  | .ROLLPITCHATTITUDEILIMIT => [bank.RollPI.ILimit, bank.PitchPI.ILimit]
  | .YAWRATEKP => [bank.YawRatePID.Kp]
  | .YAWRATEKI => [bank.YawRatePID.Ki]
  | .YAWRATEKD => [bank.YawRatePID.Kd]
  | .YAWRATEILIMIT => [bank.YawRatePID.ILimit]
  | .YAWATTITUDEKP => [bank.YawPI.Kp]
  | .YAWATTITUDEKI => [bank.YawPI.Ki]
  | .YAWATTITUDEILIMIT => [bank.YawPI.ILimit]
  | .GYROTAU => [stab.GyroTau]

/-- Snapshot of everything `updatePIDs` reads from the object bus and the
event that triggered it: the triggering-object check, the TxPID settings
record, the armed state, the three stabilization bank records, the
stabilization settings record, the throttle, and the accessory channels
(`none` models a failing `AccessoryDesiredInstGet`). -/
structure Env where
  evIsAccessory : Bool
  inst : TxPIDSettingsData
  armed : Nat
  bank1 : StabilizationBankData
  bank2 : StabilizationBankData
  bank3 : StabilizationBankData
  stab : StabilizationSettingsData
  throttle : ℚ
  accessory : Nat → Option ℚ

/-- Which physical bank record the read `switch (inst.UpdateMode)` of
`updatePIDs` (txpid.c lines 171-187) loads for a given selector value:
case 0 calls `StabilizationSettingsBank1Get`, case 1 calls
`StabilizationSettingsBank2Get`, and case 2 also calls
`StabilizationSettingsBank2Get` (the source does not call `Bank3Get`);
the default case returns, ending the tick. -/
def readBankSlot : Nat → Option Nat
  | 0 => some 1
  | 1 => some 2
  | 2 => some 2
  | _ => none

/-- Which physical bank record the write-back `switch (inst.UpdateMode)` of
`updatePIDs` (txpid.c lines 320-336) stores for a given selector value:
case 0 calls `StabilizationSettingsBank1Set`, case 1 calls
`StabilizationSettingsBank2Set`, and case 2 also calls
`StabilizationSettingsBank2Set`; the default case returns without writing. -/
def writeBankSlot : Nat → Option Nat
  | 0 => some 1
  | 1 => some 2
  | 2 => some 2
  | _ => none

/-- Bank record stored in a given physical bank slot of the environment. -/
def bankOfSlot (env : Env) : Nat → StabilizationBankData
  | 1 => env.bank1
  | 2 => env.bank2
  | _ => env.bank3

/-- Local bank record loaded by the read switch of `updatePIDs`, or `none`
when the selector is out of range and the tick ends. -/
def readBank (env : Env) : Option StabilizationBankData :=
  (readBankSlot env.inst.UpdateMode).map (bankOfSlot env)

/-- Resolution of a slot's input source (txpid.c lines 198-214): `THROTTLE`
reads the throttle and scales it from the configured throttle range to the
slot's PID range; any other identifier is an accessory, scaled from the fixed
`[-1, 1]` range; a missing accessory yields `none` and the slot is skipped. -/
def resolveInput (inst : TxPIDSettingsData) (throttle : ℚ)
    (accessory : Nat → Option ℚ) (slot : TxPIDSlot) : Option ℚ :=
  if slot.input = TXPIDSETTINGS_INPUTS_THROTTLE then
    some (scale throttle inst.ThrottleRangeMin inst.ThrottleRangeMax
      slot.MinPID slot.MaxPID)
  else
    match accessory (slot.input - TXPIDSETTINGS_INPUTS_ACCESSORY0) with
    | some v => some (scale v (-1) 1 slot.MinPID slot.MaxPID)
    | none => none

/-- One iteration of the slot loop of `updatePIDs` (txpid.c lines 196-315),
acting on the state `(bank, stab, needsUpdateBank, needsUpdateStab)`:
a `DISABLED` slot is skipped, an unresolvable input is skipped, and otherwise
the scaled value is dispatched and the change flags are ORed in. -/
def step (inst : TxPIDSettingsData) (throttle : ℚ) (accessory : Nat → Option ℚ)
    (st : StabilizationBankData × StabilizationSettingsData × Bool × Bool)
    (slot : TxPIDSlot) :
    StabilizationBankData × StabilizationSettingsData × Bool × Bool :=
  if slot.pid = PIDTarget.DISABLED then st
  else
    match resolveInput inst throttle accessory slot with
    | none => st
    | some value =>
      let r := dispatch slot.pid value st.1 st.2.1
      (r.1, r.2.1, st.2.2.1 || r.2.2.1, st.2.2.2 || r.2.2.2)

/-- Guards and slot loop of `updatePIDs` (txpid.c lines 150-315): `none` when
the tick ends early (wrong triggering object, `UpdateMode == NEVER`,
`WHENARMED` while disarmed, or an out-of-range bank selector), otherwise the
local bank, local settings and the two dirty flags after the loop. -/
def tickCore (env : Env) :
    Option (StabilizationBankData × StabilizationSettingsData × Bool × Bool) :=
  if env.evIsAccessory = false then none
  else if env.inst.UpdateMode = TXPIDSETTINGS_UPDATEMODE_NEVER then none
  else if env.inst.UpdateMode = TXPIDSETTINGS_UPDATEMODE_WHENARMED ∧
    env.armed = FLIGHTSTATUS_ARMED_DISARMED then none
  else
    match readBank env with
    | none => none
    | some bank =>
      some (env.inst.slots.foldl (step env.inst env.throttle env.accessory)
        (bank, env.stab, false, false))

/-- Bus write performed at the end of a tick: either the stabilization
settings record, or a stabilization bank record at a physical bank slot. -/
inductive WriteEvent where
  | stabSet (stab : StabilizationSettingsData)
  | bankSet (slot : Nat) (bank : StabilizationBankData)
  deriving DecidableEq

/-- Embedding of `static void updatePIDs(UAVObjEvent *ev)` (txpid.c lines
150-338) as the list of bus writes a tick performs, in order: the settings
record if `needsUpdateStab`, then the bank record at the slot the write
switch selects if `needsUpdateBank`. -/
def updatePIDs (env : Env) : List WriteEvent :=
  match tickCore env with
  | none => []
  | some (bank, stab, needsUpdateBank, needsUpdateStab) =>
    (if needsUpdateStab then [WriteEvent.stabSet stab] else []) ++
      (if needsUpdateBank then
        match writeBankSlot env.inst.UpdateMode with
        | some n => [WriteEvent.bankSet n bank]
        | none => []
      else [])

/-- Local bank record at the end of the slot loop ("the resulting bank" of a
tick), or `none` when the tick ended early. -/
def finalBank (env : Env) : Option StabilizationBankData :=
  (tickCore env).map (fun r => r.1)

/-- Value of the `needsUpdateBank` dirty flag at the end of the slot loop
(`false` when the tick ended early). -/
def bankDirtyOf (env : Env) : Bool :=
  match tickCore env with
  | some (_, _, nb, _) => nb
  | none => false

/-- Value of the `needsUpdateStab` dirty flag at the end of the slot loop
(`false` when the tick ended early). -/
def stabDirtyOf (env : Env) : Bool :=
  match tickCore env with
  | some (_, _, _, ns) => ns
  | none => false

/-- Number of bank-record writes in a trace of bus writes. -/
def countBankWrites (l : List WriteEvent) : Nat :=
  l.countP (fun e => match e with | .bankSet _ _ => true | _ => false)

/-- Number of settings-record writes in a trace of bus writes. -/
def countStabWrites (l : List WriteEvent) : Nat :=
  l.countP (fun e => match e with | .stabSet _ => true | _ => false)

/-- Steady-state condition of one slot: the slot is disabled, or its input
does not resolve, or every field its target routes to is already within
`eps` of the slot's scaled value. -/
def slotSteady (inst : TxPIDSettingsData) (throttle : ℚ)
    (accessory : Nat → Option ℚ) (bank : StabilizationBankData)
    (stab : StabilizationSettingsData) (slot : TxPIDSlot) : Bool :=
  if slot.pid = PIDTarget.DISABLED then true
  else
    match resolveInput inst throttle accessory slot with
    | none => true
    | some v => (targetFields slot.pid bank stab).all
        (fun x => decide (|x - v| ≤ eps))

/-- Steady-state condition of a whole tick: every slot is steady with respect
to the bank the tick would load and the current settings (vacuously true when
the bank selector is out of range). -/
def allSlotsSteady (env : Env) : Bool :=
  match readBank env with
  | none => true
  | some bank => env.inst.slots.all
      (slotSteady env.inst env.throttle env.accessory bank env.stab)

/-- Bank record with all coefficients zero, used as a base for concrete
scenarios. -/
def zeroBank : StabilizationBankData :=
  ⟨⟨0, 0, 0, 0⟩, ⟨0, 0, 0, 0⟩, ⟨0, 0, 0, 0⟩, ⟨0, 0, 0⟩, ⟨0, 0, 0⟩, ⟨0, 0, 0⟩⟩

/-- Concrete slot mapping the throttle, over range `[0, 1]`, to the coupled
`ROLLPITCHRATEKP` target. -/
def cexSlot : TxPIDSlot := ⟨PIDTarget.ROLLPITCHRATEKP, 0, 0, 1⟩

/-- Concrete environment where the coupled roll/pitch rate-Kp update leaves
the two fields unequal: the tick selects bank 2 (`UpdateMode = 2`), the
throttle reads 1/2 and scales to 1/2, the prior `RollRatePID.Kp` is within
`eps` of 1/2 (so it is not assigned) while `PitchRatePID.Kp` is 0 (so it is
assigned 1/2). -/
def cexEnv : Env :=
  { evIsAccessory := true
    inst := ⟨2, 0, 1, [cexSlot]⟩
    armed := 2
    bank1 := zeroBank
    bank2 := { zeroBank with
      RollRatePID := { zeroBank.RollRatePID with Kp := 1000000001/2000000000 } }
    bank3 := zeroBank
    stab := ⟨0⟩
    throttle := 1/2
    accessory := fun _ => none }

/-- The bank record a tick of `cexEnv` produces. -/
def cexBankAfter : StabilizationBankData :=
  { zeroBank with
    RollRatePID := { zeroBank.RollRatePID with Kp := 1000000001/2000000000 },
    PitchRatePID := { zeroBank.PitchRatePID with Kp := 1/2 } }

/-- Concrete environment with `UpdateMode = WHENARMED` and disarmed state. -/
def envWhenArmedDisarmed : Env :=
  { evIsAccessory := true
    inst := ⟨TXPIDSETTINGS_UPDATEMODE_WHENARMED, 0, 1,
      [⟨PIDTarget.ROLLRATEKP, 0, 0, 1⟩]⟩
    armed := FLIGHTSTATUS_ARMED_DISARMED
    bank1 := zeroBank
    bank2 := zeroBank
    bank3 := zeroBank
    stab := ⟨0⟩
    throttle := 1/2
    accessory := fun _ => none }

/-- Concrete steady-state environment: the single enabled slot scales the
throttle to 1/2 and `bank2.RollRatePID.Kp` already equals 1/2. -/
def envSteady : Env :=
  { evIsAccessory := true
    inst := ⟨2, 0, 1, [⟨PIDTarget.ROLLRATEKP, 0, 0, 1⟩]⟩
    armed := 2
    bank1 := zeroBank
    bank2 := { zeroBank with
      RollRatePID := { zeroBank.RollRatePID with Kp := 1/2 } }
    bank3 := zeroBank
    stab := ⟨0⟩
    throttle := 1/2
    accessory := fun _ => none }

/-- Concrete disabled slot (with an input source and range that would
otherwise produce a write). -/
def disabledSlot : TxPIDSlot := ⟨PIDTarget.DISABLED, 0, 0, 1⟩

/-- Concrete environment whose only slot is disabled. -/
def envDisabled : Env :=
  { evIsAccessory := true
    inst := ⟨2, 0, 1, [disabledSlot]⟩
    armed := 2
    bank1 := zeroBank
    bank2 := zeroBank
    bank3 := zeroBank
    stab := ⟨0⟩
    throttle := 1/2
    accessory := fun _ => none }

end TxPID

namespace SinLookup

/-- Embedding of `const int SIN_RESOLUTION = 180` from sin_lookup.c; the heap
table built by `sin_lookup_initalize` holds exactly the indices
`0 ≤ i < SIN_RESOLUTION`. -/
def SIN_RESOLUTION : Int := 180

/-- Index into `sin_table` computed by `sin_lookup_deg` (sin_lookup.c lines
98-107): `int i_ang = ((int32_t) angle) % 360` followed by the branch
`i_ang > 180 ? i_ang - 180 : i_ang`.  The argument is the already-truncated
angle (`(int32_t) angle`); C's `%` on `int` is truncated division remainder,
rendered as `Int.tmod`. -/
def sinLookupIndex (iAngle : Int) : Int :=
  let iAng := Int.tmod iAngle 360
  if iAng > 180 then iAng - 180 else iAng

end SinLookup

namespace TxPID

/-- C3: the result of `scale` always lies in the closed interval spanned by the
original `outMin` and `outMax`, for every ordering of the output bounds and
every input value (in range or not, degenerate input range or not). -/
theorem scale_result_in_output_interval (val inMin inMax outMin outMax : ℚ) :
    min outMin outMax ≤ scale val inMin inMax outMin outMax ∧
      scale val inMin inMax outMin outMax ≤ max outMin outMax := by
  simp only [scale]
  set v1 := if val > inMax then inMax else val with hv1
  set v2 := if v1 < inMin then inMin else v1 with hv2
  set t := if inMax ≤ inMin then 0 else (v2 - inMin) / (inMax - inMin) with ht
  have ht0 : 0 ≤ t ∧ t ≤ 1 := by
    rw [ht]
    split_ifs with h
    · norm_num
    · have hlt : inMin < inMax := lt_of_not_le h
      have hv1hi : v1 ≤ inMax := by
        rw [hv1]; split_ifs with h2
        · exact le_refl inMax
        · exact le_of_not_lt h2
      have hv2lo : inMin ≤ v2 := by
        rw [hv2]; split_ifs with h2
        · exact le_refl inMin
        · exact le_of_not_lt h2
      have hv2hi : v2 ≤ inMax := by
        rw [hv2]; split_ifs with h2
        · exact le_of_lt hlt
        · exact hv1hi
      constructor
      · exact div_nonneg (by linarith) (by linarith)
      · exact (div_le_one (by linarith)).mpr (by linarith)
  obtain ⟨ht0, ht1⟩ := ht0
  split_ifs with hout
  · rw [min_eq_right (le_of_lt hout), max_eq_left (le_of_lt hout)]
    have hb0 : 0 ≤ (outMin - outMax) * (1 - t) :=
      mul_nonneg (by linarith) (by linarith)
    have hb1 : (outMin - outMax) * (1 - t) ≤ (outMin - outMax) * 1 :=
      mul_le_mul_of_nonneg_left (by linarith) (by linarith)
    constructor <;> linarith
  · have hle : outMin ≤ outMax := le_of_not_lt hout
    rw [min_eq_left hle, max_eq_right hle]
    have hb0 : 0 ≤ (outMax - outMin) * t :=
      mul_nonneg (by linarith) (by linarith)
    have hb1 : (outMax - outMin) * t ≤ (outMax - outMin) * 1 :=
      mul_le_mul_of_nonneg_left (by linarith) (by linarith)
    constructor <;> linarith

/-- C4: `update(dest, newValue)` returns true exactly when the old value and
the new value differ in magnitude by more than 1e-9, in which case the stored
value becomes `newValue`; otherwise it returns false and the stored value is
unchanged. -/
theorem update_assigns_iff_far (var val : ℚ) :
    ((update var val).2 = true ↔ |var - val| > eps) ∧
      (update var val).1 = (if |var - val| > eps then val else var) := by
  unfold update
  split_ifs with h <;> simp [h]

/-- C9: a degenerate input range collapses the normalized value to 0 and the
result of `scale(v, x, x, a, b)` is exactly the original `outMin` argument,
whether or not the output bounds are reversed. -/
theorem scale_degenerate_input (v x a b : ℚ) : scale v x x a b = a := by
  unfold scale
  simp only [le_refl, if_true]
  split_ifs <;> ring

theorem update_of_far (var val : ℚ) (h : |var - val| > eps) :
    update var val = (val, true) := by
  unfold update
  rw [if_pos h]

theorem update_of_close (var val : ℚ) (h : |var - val| ≤ eps) :
    update var val = (var, false) := by
  unfold update
  rw [if_neg (not_lt.mpr h)]

theorem update_fst_close (var val : ℚ) : |(update var val).1 - val| ≤ eps := by
  unfold update
  split_ifs with h
  · simp only [sub_self, abs_zero]
    norm_num [eps]
  · exact not_lt.mp h

/-- C1: evaluation of the two bank-selection switches of `updatePIDs` at
selector value 2.  The claim states that selector 2 loads (and later stores)
bank 3; the source's `case 2` calls `StabilizationSettingsBank2Get` /
`StabilizationSettingsBank2Set`, so both switches touch bank slot 2, not
bank slot 3. -/
theorem bank_selector_two_touches_bank2 :
    readBankSlot 2 = some 2 ∧ writeBankSlot 2 = some 2 ∧
      readBankSlot 2 ≠ some 3 ∧ writeBankSlot 2 ≠ some 3 := by
  refine ⟨rfl, rfl, ?_, ?_⟩ <;> decide

/-- C2 (amended): after the coupled `ROLLPITCHRATEKP` dispatch with input
value `value`, both `bank.RollRatePID.Kp` and `bank.PitchRatePID.Kp` lie
within `eps = 1e-9` of `value` (hence within `2e-9` of each other), and they
are exactly equal whenever both prior values differ from `value` by more
than `eps`.  Bit-for-bit equality for every prior bank state does not hold
(see the counterexample). -/
theorem rollpitchratekp_tracks_value (bank : StabilizationBankData)
    (stab : StabilizationSettingsData) (value : ℚ) :
    |(dispatch PIDTarget.ROLLPITCHRATEKP value bank stab).1.RollRatePID.Kp - value| ≤ eps ∧
    |(dispatch PIDTarget.ROLLPITCHRATEKP value bank stab).1.PitchRatePID.Kp - value| ≤ eps ∧
    (|bank.RollRatePID.Kp - value| > eps → |bank.PitchRatePID.Kp - value| > eps →
      (dispatch PIDTarget.ROLLPITCHRATEKP value bank stab).1.RollRatePID.Kp =
        (dispatch PIDTarget.ROLLPITCHRATEKP value bank stab).1.PitchRatePID.Kp) := by
  refine ⟨?_, ?_, ?_⟩
  · simpa only [dispatch] using update_fst_close bank.RollRatePID.Kp value
  · simpa only [dispatch] using update_fst_close bank.PitchRatePID.Kp value
  · intro h1 h2
    simp only [dispatch, update_of_far _ _ h1, update_of_far _ _ h2]

theorem rollpitchratekp_tracks_value_witness :
    |zeroBank.RollRatePID.Kp - 1| > eps ∧ |zeroBank.PitchRatePID.Kp - 1| > eps ∧
      (dispatch PIDTarget.ROLLPITCHRATEKP 1 zeroBank ⟨0⟩).1.RollRatePID.Kp =
        (dispatch PIDTarget.ROLLPITCHRATEKP 1 zeroBank ⟨0⟩).1.PitchRatePID.Kp := by
  have h1 : |zeroBank.RollRatePID.Kp - 1| > eps := by
    show |(0 : ℚ) - 1| > eps
    rw [show (0 : ℚ) - 1 = -1 by ring, abs_neg, abs_one]
    norm_num [eps]
  have h2 : |zeroBank.PitchRatePID.Kp - 1| > eps := by
    show |(0 : ℚ) - 1| > eps
    rw [show (0 : ℚ) - 1 = -1 by ring, abs_neg, abs_one]
    norm_num [eps]
  exact ⟨h1, h2, (rollpitchratekp_tracks_value zeroBank ⟨0⟩ 1).2.2 h1 h2⟩

/-- C2 (counterexample): a concrete tick in which the single enabled slot
targets `ROLLPITCHRATEKP` and its input resolves (to 1/2), yet the resulting
bank has `RollRatePID.Kp ≠ PitchRatePID.Kp`: the prior roll value
`1/2 + 5e-10` is within `eps` of 1/2 and is kept, while the prior pitch value
0 is overwritten with 1/2 exactly. -/
theorem coupled_exact_equality_fails :
    cexSlot.pid = PIDTarget.ROLLPITCHRATEKP ∧
    cexEnv.inst.slots = [cexSlot] ∧
    resolveInput cexEnv.inst cexEnv.throttle cexEnv.accessory cexSlot = some (1/2) ∧
    finalBank cexEnv = some cexBankAfter ∧
    cexBankAfter.RollRatePID.Kp ≠ cexBankAfter.PitchRatePID.Kp := by
  have hscale : scale (1/2) 0 1 0 1 = 1/2 := by
    simp only [scale]
    norm_num
  have hup1 : update (1000000001/2000000000 : ℚ) (1/2)
      = (1000000001/2000000000, false) := by
    apply update_of_close
    rw [show (1000000001/2000000000 : ℚ) - 1/2 = 1/2000000000 by norm_num,
      abs_of_nonneg (by norm_num)]
    norm_num [eps]
  have hup2 : update (0 : ℚ) (1/2) = (1/2, true) := by
    apply update_of_far
    rw [show (0 : ℚ) - 1/2 = -(1/2) by ring, abs_neg, abs_of_nonneg (by norm_num)]
    norm_num [eps]
  have hres : resolveInput cexEnv.inst cexEnv.throttle cexEnv.accessory cexSlot
      = some (1/2) := by
    rw [show resolveInput cexEnv.inst cexEnv.throttle cexEnv.accessory cexSlot
        = some (scale (1/2) 0 1 0 1) from rfl, hscale]
  have hd : dispatch PIDTarget.ROLLPITCHRATEKP (1/2) cexEnv.bank2 cexEnv.stab
      = (cexBankAfter, cexEnv.stab, true, false) := by
    rw [show dispatch PIDTarget.ROLLPITCHRATEKP (1/2) cexEnv.bank2 cexEnv.stab
        = ({ cexEnv.bank2 with
              RollRatePID := { cexEnv.bank2.RollRatePID with
                Kp := (update (1000000001/2000000000 : ℚ) (1/2)).1 },
              PitchRatePID := { cexEnv.bank2.PitchRatePID with
                Kp := (update (0 : ℚ) (1/2)).1 } },
            cexEnv.stab,
            (update (1000000001/2000000000 : ℚ) (1/2)).2 || (update (0 : ℚ) (1/2)).2,
            false) from rfl, hup1, hup2]
    rfl
  have hcore : tickCore cexEnv = some (cexBankAfter, cexEnv.stab, true, false) := by
    rw [show tickCore cexEnv = some
        ((dispatch PIDTarget.ROLLPITCHRATEKP (scale (1/2) 0 1 0 1) cexEnv.bank2 cexEnv.stab).1,
         (dispatch PIDTarget.ROLLPITCHRATEKP (scale (1/2) 0 1 0 1) cexEnv.bank2 cexEnv.stab).2.1,
         false ||
           (dispatch PIDTarget.ROLLPITCHRATEKP (scale (1/2) 0 1 0 1) cexEnv.bank2 cexEnv.stab).2.2.1,
         false ||
           (dispatch PIDTarget.ROLLPITCHRATEKP (scale (1/2) 0 1 0 1) cexEnv.bank2 cexEnv.stab).2.2.2)
        from rfl, hscale, hd]
    rfl
  refine ⟨rfl, rfl, hres, ?_, ?_⟩
  · unfold finalBank
    rw [hcore]
    rfl
  · show (1000000001/2000000000 : ℚ) ≠ 1/2
    norm_num

/-- C5: with `UpdateMode = WHENARMED` and disarmed flight status, a tick of
`updatePIDs` returns before touching any record: no bus writes occur for any
slot configuration, input values, bank or settings state. -/
theorem whenarmed_disarmed_tick_writes_nothing (env : Env)
    (h1 : env.inst.UpdateMode = TXPIDSETTINGS_UPDATEMODE_WHENARMED)
    (h2 : env.armed = FLIGHTSTATUS_ARMED_DISARMED) :
    updatePIDs env = [] := by
  unfold updatePIDs tickCore
  split_ifs with g1 g2 g3
  · rfl
  · rfl
  · rfl
  · exact absurd ⟨h1, h2⟩ g3

theorem whenarmed_disarmed_tick_writes_nothing_witness :
    updatePIDs envWhenArmedDisarmed = [] :=
  whenarmed_disarmed_tick_writes_nothing envWhenArmedDisarmed rfl rfl

theorem dispatch_of_steady (t : PIDTarget) (v : ℚ) (bank : StabilizationBankData)
    (stab : StabilizationSettingsData)
    (h : (targetFields t bank stab).all (fun x => decide (|x - v| ≤ eps)) = true) :
    dispatch t v bank stab = (bank, stab, false, false) := by
  cases t <;>
    simp only [targetFields, List.all_cons, List.all_nil, Bool.and_true,
      decide_eq_true_eq, Bool.and_eq_true] at h <;>
    first
    | rfl
    | (simp only [dispatch, update_of_close _ _ h]; try rfl)
    | (simp only [dispatch, update_of_close _ _ h.1, update_of_close _ _ h.2]; try rfl)

theorem step_of_steady (inst : TxPIDSettingsData) (throttle : ℚ)
    (accessory : Nat → Option ℚ) (bank : StabilizationBankData)
    (stab : StabilizationSettingsData) (nb ns : Bool) (slot : TxPIDSlot)
    (h : slotSteady inst throttle accessory bank stab slot = true) :
    step inst throttle accessory (bank, stab, nb, ns) slot = (bank, stab, nb, ns) := by
  unfold slotSteady at h
  unfold step
  split_ifs with hd
  · rfl
  · rw [if_neg hd] at h
    cases hr : resolveInput inst throttle accessory slot with
    | none => simp only [hr]
    | some v =>
      rw [hr] at h
      simp only [hr]
      show ((dispatch slot.pid v bank stab).1, (dispatch slot.pid v bank stab).2.1,
        nb || (dispatch slot.pid v bank stab).2.2.1,
        ns || (dispatch slot.pid v bank stab).2.2.2) = (bank, stab, nb, ns)
      rw [dispatch_of_steady slot.pid v bank stab h]
      simp

theorem foldl_of_steady (inst : TxPIDSettingsData) (throttle : ℚ)
    (accessory : Nat → Option ℚ) (bank : StabilizationBankData)
    (stab : StabilizationSettingsData) :
    ∀ (l : List TxPIDSlot) (nb ns : Bool),
      (∀ s ∈ l, slotSteady inst throttle accessory bank stab s = true) →
      l.foldl (step inst throttle accessory) (bank, stab, nb, ns) = (bank, stab, nb, ns)
  | [], _, _, _ => rfl
  | s :: l, nb, ns, h => by
    rw [List.foldl_cons,
      step_of_steady inst throttle accessory bank stab nb ns s
        (h s (List.mem_cons_self s l))]
    exact foldl_of_steady inst throttle accessory bank stab l nb ns
      (fun x hx => h x (List.mem_cons_of_mem s hx))

/-- C7: steady-state idempotence of the tick.  If every slot is steady (for
every enabled slot whose input resolves, the scaled input already matches all
of its target fields within `eps = 1e-9`) — which holds in particular right
after a tick whose inputs have not changed — then the tick performs no bus
writes. -/
theorem steady_state_tick_writes_nothing (env : Env)
    (h : allSlotsSteady env = true) : updatePIDs env = [] := by
  unfold updatePIDs
  cases hc : tickCore env with
  | none => rfl
  | some r =>
    obtain ⟨bank, stab, nb, ns⟩ := r
    unfold tickCore at hc
    split_ifs at hc
    cases hrb : readBank env with
    | none =>
      rw [hrb] at hc
      exact Option.noConfusion hc
    | some bk =>
      rw [hrb] at hc
      dsimp only at hc
      unfold allSlotsSteady at h
      rw [hrb, List.all_eq_true] at h
      rw [foldl_of_steady env.inst env.throttle env.accessory bk env.stab
        env.inst.slots false false h] at hc
      simp only [Option.some.injEq, Prod.mk.injEq] at hc
      obtain ⟨-, -, hnb, hns⟩ := hc
      rw [← hnb, ← hns]
      rfl

theorem steady_state_tick_writes_nothing_witness :
    updatePIDs envSteady = [] :=
  steady_state_tick_writes_nothing envSteady (by
    rw [show allSlotsSteady envSteady
        = ((decide (|1/2 - scale (1/2) 0 1 0 1| ≤ eps) && true) && true) from rfl]
    rw [show scale (1/2) 0 1 0 1 = (1/2 : ℚ) by simp only [scale]; norm_num]
    rw [sub_self, abs_zero]
    simp only [Bool.and_true]
    rw [decide_eq_true_eq]
    norm_num [eps])

/-- C6: in every tick the bank record is written back at most once and the
settings record at most once, and a record is written only when its dirty
flag — the OR of the results of the `update` calls that targeted it during
the loop — is set. -/
theorem tick_writes_each_record_at_most_once (env : Env) :
    countBankWrites (updatePIDs env) ≤ (if bankDirtyOf env = true then 1 else 0) ∧
      countStabWrites (updatePIDs env) ≤ (if stabDirtyOf env = true then 1 else 0) := by
  unfold updatePIDs bankDirtyOf stabDirtyOf
  cases hc : tickCore env with
  | none =>
    exact ⟨by simp [countBankWrites], by simp [countStabWrites]⟩
  | some r =>
    obtain ⟨bank, stab, nb, ns⟩ := r
    cases nb <;> cases ns <;>
      cases hw : writeBankSlot env.inst.UpdateMode <;>
      simp [countBankWrites, countStabWrites, List.countP_append, List.countP_cons,
        List.countP_nil]

theorem step_of_disabled (inst : TxPIDSettingsData) (throttle : ℚ)
    (accessory : Nat → Option ℚ)
    (st : StabilizationBankData × StabilizationSettingsData × Bool × Bool)
    (s : TxPIDSlot) (hpid : s.pid = PIDTarget.DISABLED) :
    step inst throttle accessory st s = st := by
  unfold step
  rw [if_pos hpid]

/-- C8: a slot configured `DISABLED` never contributes anything to a tick:
removing it from the slot list leaves the tick's bus writes unchanged, for
every input source, input values and PID range it may carry (the loop skips
it before reading its input). -/
theorem disabled_slot_never_contributes (env : Env) (l1 l2 : List TxPIDSlot)
    (s : TxPIDSlot) (hpid : s.pid = PIDTarget.DISABLED)
    (hslots : env.inst.slots = l1 ++ s :: l2) :
    updatePIDs env
      = updatePIDs { env with inst := { env.inst with slots := l1 ++ l2 } } := by
  have hcore : tickCore { env with inst := { env.inst with slots := l1 ++ l2 } }
      = tickCore env := by
    show (if env.evIsAccessory = false then none
      else if env.inst.UpdateMode = TXPIDSETTINGS_UPDATEMODE_NEVER then none
      else if env.inst.UpdateMode = TXPIDSETTINGS_UPDATEMODE_WHENARMED ∧
        env.armed = FLIGHTSTATUS_ARMED_DISARMED then none
      else match readBank env with
        | none => none
        | some bank => some ((l1 ++ l2).foldl
            (step env.inst env.throttle env.accessory) (bank, env.stab, false, false)))
      = tickCore env
    unfold tickCore
    rw [hslots]
    have hf : ∀ init, (l1 ++ s :: l2).foldl (step env.inst env.throttle env.accessory) init
        = (l1 ++ l2).foldl (step env.inst env.throttle env.accessory) init := by
      intro init
      rw [List.foldl_append, List.foldl_append, List.foldl_cons,
        step_of_disabled env.inst env.throttle env.accessory _ s hpid]
    simp only [hf]
  unfold updatePIDs
  rw [hcore]

theorem disabled_slot_never_contributes_witness :
    updatePIDs envDisabled
      = updatePIDs { envDisabled with
          inst := { envDisabled.inst with slots := [] ++ [] } } :=
  disabled_slot_never_contributes envDisabled [] [] disabledSlot rfl rfl

end TxPID

namespace SinLookup

/-- C10: evaluation of the table index of `sin_lookup_deg` at concrete
angles refuting in-bounds access: a truncated angle of 180 yields index 180,
which is not below `SIN_RESOLUTION = 180`, and a truncated angle of -90
yields the negative index -90; both are outside the table bounds
`[0, SIN_RESOLUTION)` that the claim asserts. -/
theorem sin_lookup_index_out_of_bounds :
    sinLookupIndex 180 = 180 ∧ ¬ sinLookupIndex 180 < SIN_RESOLUTION ∧
      sinLookupIndex (-90) = -90 ∧ sinLookupIndex (-90) < 0 := by
  refine ⟨rfl, ?_, rfl, ?_⟩ <;> decide

end SinLookup
